import Mathlib

/-!
Verification of `bulbs/element.py`: the Element/Vertex/Edge containers, the
VertexProxy/EdgeProxy CRUD proxies, and the coercion utilities.

The embedding models:
  * JSON-ish scalar property values (`Value`);
  * Python dicts as association lists (`Dict`, `lookupAssoc`, `updateAssoc`);
  * an `Element` in its pure, post-`_initialize` form (structure `Element`),
    with full Python attribute-lookup order: class data descriptors (the
    structural `property` accessors), then the instance `__dict__`, then class
    methods, then `Element.__getattr__` (which serves `self._data` and raises
    `AttributeError(name)` when the key is absent);
  * the proxies over an abstract network client (`Client`);
  * two small heap models, one of dicts of values (`DHeap`, for the in-place
    mutation performed by `build_data`) and one of nested objects (`Heap`,
    for the `dict.copy()` aliasing behavior of `Element._initialize`).
-/

/-- A scalar database property value (string, int, bool or None), as stored in
an element's property-data dict.  Nested lists/maps are handled separately by
the object-heap model (`Obj`), where aliasing matters. -/
inductive Value where
  | str : String → Value
  | int : Int → Value
  | bool : Bool → Value
  | null : Value
deriving DecidableEq

/-- A Python dict of property data, modeled as an insertion-ordered
association list with distinct keys. -/
abbrev Dict := List (String × Value)

/-- First-match association lookup: `l[k]` on a Python dict. -/
def lookupAssoc {α : Type} : List (String × α) → String → Option α
  | [], _ => none
  | p :: t, k => if p.1 = k then some p.2 else lookupAssoc t k

/-- `d[k] = v` on a Python dict: replaces the value in place if the key is
present (keeping its position), appends otherwise. -/
def updateAssoc {α : Type} : List (String × α) → String → α → List (String × α)
  | [], k, v => [(k, v)]
  | p :: t, k, v => if p.1 = k then (k, v) :: t else p :: updateAssoc t k v

/-- `d.update(kwds)` on Python dicts: folds every pair of `kwds` into `d` in
order, later pairs (and `kwds` generally) winning on key collision. -/
def updateAll (d : Dict) : Dict → Dict
  | [] => d
  | p :: t => updateAll (updateAssoc d p.1 p.2) t

/-- Python `dict.__eq__`: order-irrelevant key/value agreement. -/
def dictEqv (a b : Dict) : Bool :=
  a.all (fun p => lookupAssoc b p.1 == some p.2) &&
    b.all (fun p => lookupAssoc a p.1 == some p.2)

/-- Reads a cell of a heap modeled as a list of cells addressed by position. -/
def cellGet {α : Type} : List α → Nat → Option α
  | [], _ => none
  | x :: _, 0 => some x
  | _ :: t, n + 1 => cellGet t n

/-- Overwrites a cell of a heap modeled as a list of cells. -/
def cellSet {α : Type} : List α → Nat → α → List α
  | [], _, _ => []
  | _ :: t, 0, v => v :: t
  | x :: t, n + 1, v => x :: cellSet t n v

/-- The decoded server response backing one element: the `Result` interface
consumed by `element.py` (`get_id`, `get_type`, `get_uri`, `get_map`, and for
edges `get_outV`/`get_inV`/`get_label`).  The wire-decoding layer itself is an
external collaborator; for a vertex `Result` the edge accessors hold `null`. -/
structure Result where
  get_id : Value
  get_type : String
  get_label : Value
  get_outV : Value
  get_inV : Value
  get_map : Dict
  get_uri : String
deriving DecidableEq

/-- A client `Response`, exposing the decoded `Result` via `.results` as used
by the proxy methods. -/
structure Response where
  results : Result
deriving DecidableEq

/-- Python exceptions relevant to this module: `LookupError` (absent element),
`AssertionError` (failed `assert`), and opaque transport/server errors. -/
inductive PyErr where
  | lookupError
  | assertionError
  | other : String → PyErr
deriving DecidableEq

/-- The client `Config` slice used by `element.py`: `id_var`, the configured
name under which the element ID is re-exposed (defaults to an eid-like name). -/
structure Config where
  id_var : String

/-- The network-client collaborator, as consumed by the proxies.  Each
operation is a function returning either a `Response` or a raised error. -/
structure Client where
  config : Config
  create_vertex : Dict → Except PyErr Response
  get_vertex : Value → Except PyErr Response
  update_vertex : Value → Option Dict → Except PyErr Response
  delete_vertex : Value → Except PyErr Response
  remove_vertex_properties : Value → Except PyErr Response
  create_edge : Value → String → Value → Dict → Except PyErr Response
  get_edge : Value → Except PyErr Response
  delete_edge : Value → Except PyErr Response
  remove_edge_properties : Value → Except PyErr Response

/-- The outcome of one Python attribute read: either a plain data value, or an
opaque non-value object (a bound method, proxy, client, result or flag). -/
inductive Attr where
  | value : Value → Attr
  | obj : Attr
deriving DecidableEq

/-- An `Element` (Vertex or Edge) in its post-`_initialize` state:
`dictVals` are plain values written over instance-`__dict__` entries via
`object.__setattr__` (empty in the normal lifecycle); `data` is `self._data`;
`result` is `self._result`; `initialized` mirrors the `_initialized` flag
(`true` iff the `__dict__` entry is not Python `False`); `isEdge` is the
concrete class tag (`Vertex` vs `Edge`); `prettyVar` is the `config.id_var`
name installed as a class property by `_set_pretty_id`. -/
structure Element where
  dictVals : Dict
  data : Dict
  result : Result
  initialized : Bool
  isEdge : Bool
  prettyVar : String
deriving DecidableEq

/-- The keys present in an initialized element's instance `__dict__`, holding
the non-value objects installed by `__init__`/`_initialize` (`self._client`,
`self._data`, `self._result`, `self._vertices`, `self._edges`,
`self._initialized`).  `__setattr__`'s `key in self.__dict__` test consults
these (together with any `dictVals` overrides). -/
def elementInstanceNames : List String :=
  ["_client", "_data", "_result", "_vertices", "_edges", "_initialized"]

/-- The non-data class attributes (methods) of `Vertex`: those inherited from
`Element` plus the adjacency methods and `save`.  Dunder methods, which are
looked up on the type and never reach `__getattr__`, are omitted. -/
def vertexMethodNames : List String :=
  ["_initialize", "get_base_type", "get_element_key", "get_index_name",
   "get_proxy_class", "_set_pretty_id", "get", "map",
   "outE", "inE", "bothE", "outV", "inV", "bothV", "save"]

/-- The non-data class attributes (methods) of `Edge`: those inherited from
`Element` plus the endpoint accessors, `label` and `save`. -/
def edgeMethodNames : List String :=
  ["_initialize", "get_base_type", "get_element_key", "get_index_name",
   "get_proxy_class", "_set_pretty_id", "get", "map",
   "outV", "inV", "label", "save"]

/-- Method-name table for the element's concrete class. -/
def methodNames (isEdge : Bool) : List String :=
  if isEdge then edgeMethodNames else vertexMethodNames

/-- The `Element._id` property: `self._result.get_id()`. -/
def Element._id (e : Element) : Value :=
  e.result.get_id

/-- The class-level data descriptors (Python `property` objects): the pretty-ID
property installed by `_set_pretty_id` (checked first, as the most recent
`setattr` on the class), `_id` and `_type` from `Element`, and for `Edge` also
`_outV`, `_inV` and `_label`.  Returns the property's value, `none` when `name`
is not a descriptor.  Data descriptors take precedence over the instance
`__dict__` on reads and are not themselves writable through `__dict__`. -/
def Element.descriptorRead (e : Element) (name : String) : Option Value :=
  if name = e.prettyVar then some (Element._id e)
  else if name = "_id" then some (Element._id e)
  else if name = "_type" then some (Value.str e.result.get_type)
  else if e.isEdge && (name == "_outV") then some e.result.get_outV
  else if e.isEdge && (name == "_inV") then some e.result.get_inV
  else if e.isEdge && (name == "_label") then some e.result.get_label
  else none

/-- `Element.__setattr__`: `if key in self.__dict__ or _initialized is False:
object.__setattr__(self, key, value) else: self._data[key] = value`.  The
then-branch writes the instance `__dict__` (tracked in `dictVals`, with the
`_initialized` entry mirrored into the `initialized` field); the else-branch
writes the property-data dict. -/
def Element.setattr (e : Element) (key : String) (v : Value) : Element :=
  if elementInstanceNames.contains key || (lookupAssoc e.dictVals key).isSome
      || !e.initialized then
    { e with dictVals := updateAssoc e.dictVals key v,
             initialized :=
               if key = "_initialized" then !(v == Value.bool false)
               else e.initialized }
  else
    { e with data := updateAssoc e.data key v }

/-- A full Python attribute read on an element: class data descriptors first,
then the instance `__dict__` (value overrides, then the opaque objects
installed at construction), then class methods, and finally
`Element.__getattr__`, which returns `self._data[name]` and converts any
failure into `AttributeError(name)` (modeled as `Except.error name`). -/
def Element.getattr (e : Element) (name : String) : Except String Attr :=
  match Element.descriptorRead e name with
  | some v => Except.ok (Attr.value v)
  | none =>
    match lookupAssoc e.dictVals name with
    | some v => Except.ok (Attr.value v)
    | none =>
      if elementInstanceNames.contains name then Except.ok Attr.obj
      else if (methodNames e.isEdge).contains name then Except.ok Attr.obj
      else
        match lookupAssoc e.data name with
        | some v => Except.ok (Attr.value v)
        | none => Except.error name

/-- `Element.get(name)`: `getattr(self, name, None)` — the best-effort fetch
that returns Python `None` instead of raising when the attribute is absent. -/
def Element.get (e : Element) (name : String) : Attr :=
  match Element.getattr e name with
  | Except.ok a => a
  | Except.error _ => Attr.value Value.null

/-- `Element.map()`: returns the live property-data dict. -/
def Element.map (e : Element) : Dict :=
  e.data

/-- `Element.__eq__`: `isinstance(element, Element) and element.__class__ ==
self.__class__ and element._id == self._id and element._data == self._data`.
Both operands here are Elements, and within this module the concrete classes
are exactly `Vertex` and `Edge`, so `__class__` equality is the `isEdge` tag. -/
def Element.eq (self other : Element) : Bool :=
  (other.isEdge == self.isEdge) && (Element._id other == Element._id self)
    && dictEqv other.data self.data

/-- `Element.__ne__`: `not self.__eq__(element)`. -/
def Element.ne (self other : Element) : Bool :=
  !(Element.eq self other)

/-- `Element._initialize(result)` in the pure model: stores the `Result`,
sets `self._data = result.get_map().copy()` (the copy's top-level aliasing
behavior is modeled separately on the object heap), installs the pretty-ID
class property for the configured `id_var`, installs the `_vertices` and
`_edges` proxies (opaque `__dict__` entries here), and sets
`self._initialized = True`.  `isEdge` is the concrete class of the element. -/
def Element.initFromResult (isEdge : Bool) (idVar : String) (result : Result) :
    Element :=
  { dictVals := [], data := result.get_map, result := result,
    initialized := true, isEdge := isEdge, prettyVar := idVar }

/-- Applies a sequence of ordinary attribute writes, in order. -/
def applyWrites (e : Element) : List (String × Value) → Element
  | [] => e
  | p :: t => applyWrites (Element.setattr e p.1 p.2) t

/-- The element's reserved/structural accessor names: ID, base type, label and
the two endpoint IDs, as defined by the `property` accessors of
`Element`/`Edge`. -/
def reservedNames : List String :=
  ["_id", "_type", "_label", "_outV", "_inV"]

/-- Modelled from the spec: `bulbs.utils.initialize_element` is not under
`src/`; per the spec it decodes a single-result response into an initialized
element of the class registered for the result's base type. -/
def decode_element (client : Client) (result : Result) : Element :=
  Element.initFromResult (result.get_type == "edge") client.config.id_var result

/-- Modelled from the spec: `bulbs.utils.coerce_id` is not under `src/`; per
the spec, raw identifiers are accepted as given — they "may be non-integer
strings (to support backends using URI-style or string primary keys)". -/
def coerce_id (i : Value) : Value :=
  i

/-- An argument that is either a `Vertex` instance or a raw identifier, as
accepted by `EdgeProxy.create` for its endpoints.  The constructor match
models the `isinstance(vertex, Vertex)` test. -/
inductive VertexOrId where
  | vertex : Element → VertexOrId
  | raw : Value → VertexOrId

/-- `coerce_vertex`: a `Vertex` instance yields `vertex._id`; anything else is
passed through `coerce_id`. -/
def coerce_vertex : VertexOrId → Value
  | VertexOrId.vertex v => Element._id v
  | VertexOrId.raw i => coerce_id i

/-- `coerce_vertices`: coerces both endpoints. -/
def coerce_vertices (outVarg inVarg : VertexOrId) : Value × Value :=
  (coerce_vertex outVarg, coerce_vertex inVarg)

/-- `build_data(_data, kwds)` viewed purely by its return value:
`data = {} if _data is None else _data; data.update(kwds); return data`.
(The in-place mutation of a non-None `_data` is modeled on the dict heap by
`build_dataH`.) -/
def build_data (_data : Option Dict) (kwds : Dict) : Dict :=
  updateAll (match _data with | none => [] | some d => d) kwds

/-- A record of one `create_edge` request issued to the client. -/
structure CreateEdgeCall where
  outV : Value
  label : String
  inV : Value
  data : Dict
deriving DecidableEq

/-- `VertexProxy.get(_id)`: `try: resp = self.client.get_vertex(_id); return
initialize_element(self.client, resp.results) except LookupError: return
None`.  Only `LookupError` is converted to an absent result; any other raised
error propagates. -/
def VertexProxy.get (client : Client) (_id : Value) :
    Except PyErr (Option Element) :=
  match client.get_vertex _id with
  | Except.ok resp => Except.ok (some (decode_element client resp.results))
  | Except.error PyErr.lookupError => Except.ok none
  | Except.error e => Except.error e

/-- `VertexProxy.delete(_id)`: direct pass-through to
`client.delete_vertex`. -/
def VertexProxy.delete (client : Client) (_id : Value) : Except PyErr Response :=
  client.delete_vertex _id

/-- `VertexProxy.remove_properties(_id)`: direct pass-through to
`client.remove_vertex_properties`. -/
def VertexProxy.remove_properties (client : Client) (_id : Value) :
    Except PyErr Response :=
  client.remove_vertex_properties _id

/-- `EdgeProxy.get(_id)`: same shape as `VertexProxy.get`, over
`client.get_edge`. -/
def EdgeProxy.get (client : Client) (_id : Value) :
    Except PyErr (Option Element) :=
  match client.get_edge _id with
  | Except.ok resp => Except.ok (some (decode_element client resp.results))
  | Except.error PyErr.lookupError => Except.ok none
  | Except.error e => Except.error e

/-- `EdgeProxy.delete(_id)`: direct pass-through to `client.delete_edge`. -/
def EdgeProxy.delete (client : Client) (_id : Value) : Except PyErr Response :=
  client.delete_edge _id

/-- `EdgeProxy.create(outV, label, inV, _data=None, **kwds)`:
`assert label is not None` (an `AssertionError` raised before anything else —
`label` is `Option String`, `none` being Python `None`), then
`data = build_data(_data, kwds)`, `outV, inV = coerce_vertices(outV, inV)`,
`resp = self.client.create_edge(outV, label, inV, data)`, and the decoded
element is returned.  The first component of the returned pair is the trace of
client requests issued during the call. -/
def EdgeProxy.create (client : Client) (outVarg : VertexOrId)
    (label : Option String) (inVarg : VertexOrId) (_data : Option Dict)
    (kwds : Dict) : List CreateEdgeCall × Except PyErr Element :=
  match label with
  | none => ([], Except.error PyErr.assertionError)
  | some lbl =>
    let data := build_data _data kwds
    let ci := coerce_vertices outVarg inVarg
    match client.create_edge ci.1 lbl ci.2 data with
    | Except.ok resp =>
      ([{ outV := ci.1, label := lbl, inV := ci.2, data := data }],
        Except.ok (decode_element client resp.results))
    | Except.error e =>
      ([{ outV := ci.1, label := lbl, inV := ci.2, data := data }],
        Except.error e)

/-- A heap of Python dict objects holding property values, addressed by
position.  Used to model the in-place `dict.update` performed by
`build_data`. -/
abbrev DHeap := List Dict

/-- `build_data` on the dict heap:
`data = {} if _data is None else _data; data.update(kwds); return data`.
With `_data = none` a fresh empty dict is allocated and updated; otherwise the
caller's dict object is updated in place and its own address is returned. -/
def build_dataH (h : DHeap) (_data : Option Nat) (kwds : Dict) : DHeap × Nat :=
  match _data with
  | none => (h ++ [updateAll [] kwds], h.length)
  | some a => (cellSet h a (updateAll ((cellGet h a).getD []) kwds), a)

/-- The single `update_vertex` request issued by `VertexProxy.update`:
`payload` is the address of the dict argument, `none` being Python `None`. -/
structure UpdateVertexCall where
  uid : Value
  payload : Option Nat
deriving DecidableEq

/-- `VertexProxy.update(_id, _data=None, **kwds)` on the dict heap:
`data = build_data(_data, kwds)` (whose only surviving effect is the in-place
mutation of a non-None `_data`), then `self.client.update_vertex(_id, _data)`
— note the source passes `_data`, not the merged `data` — and the method body
ends without a `return` statement, so the call returns Python `None`.  The
triple is (heap afterwards, the `update_vertex` request issued, the method's
return value). -/
def VertexProxy.update (h : DHeap) (_id : Value) (_data : Option Nat)
    (kwds : Dict) : DHeap × UpdateVertexCall × Option Response :=
  let r := build_dataH h _data kwds
  (r.1, { uid := _id, payload := _data }, none)

/-- The payload-construction step of `VertexProxy.create` on the dict heap:
`data = build_data(_data, kwds)`; the returned address is the dict then passed
to `client.create_vertex`. -/
def VertexProxy.createH (h : DHeap) (_data : Option Nat) (kwds : Dict) :
    DHeap × Nat :=
  build_dataH h _data kwds

/-- A Python object on the nested-object heap: a scalar, a list of addresses,
or a dict mapping keys to addresses. -/
inductive Obj where
  | prim : Value → Obj
  | arr : List Nat → Obj
  | dict : List (String × Nat) → Obj
deriving DecidableEq

/-- The nested-object heap, addressed by position. -/
abbrev Heap := List Obj

/-- The entry list of the dict object at an address. -/
def dictEntries (h : Heap) (a : Nat) : Option (List (String × Nat)) :=
  match cellGet h a with
  | some (Obj.dict es) => some es
  | _ => none

/-- Python `dict.copy()`: allocates a new dict object carrying the same
key/address pairs; the addressed values themselves are shared, making the copy
shallow. -/
def dictCopy (h : Heap) (a : Nat) : Heap × Nat :=
  match dictEntries h a with
  | some es => (h ++ [Obj.dict es], h.length)
  | none => (h, a)

/-- The address stored under a key of the dict object at `a`. -/
def dictLookupAddr (h : Heap) (a : Nat) (k : String) : Option Nat :=
  match dictEntries h a with
  | some es => lookupAssoc es k
  | none => none

/-- `d[k] = v` on the dict object at `a` (top-level, in place). -/
def dictSetKey (h : Heap) (a : Nat) (k : String) (v : Nat) : Heap :=
  match dictEntries h a with
  | some es => cellSet h a (Obj.dict (updateAssoc es k v))
  | none => h

/-- `xs.append(v)` on the list object at `a` (in place). -/
def listAppendAt (h : Heap) (a : Nat) (v : Nat) : Heap :=
  match cellGet h a with
  | some (Obj.arr xs) => cellSet h a (Obj.arr (xs ++ [v]))
  | _ => h

/-- Dereferences the value stored under a key of the dict object at `a`. -/
def readThroughDict (h : Heap) (a : Nat) (k : String) : Option Obj :=
  match dictLookupAddr h a k with
  | some b => cellGet h b
  | none => none

/-- The heap-resident state of an element set up by `_initialize`:
the address of `result.get_map()`, the address of `self._data`, and the
proxy-installation and `_initialized` flags. -/
structure ElementH where
  resultMapAddr : Nat
  dataAddr : Nat
  hasProxies : Bool
  initFlag : Bool
deriving DecidableEq

/-- `Element._initialize(result)` on the object heap: stores the result,
sets `self._data = result.get_map().copy()` (a `dict.copy()` on the heap),
installs the `_vertices`/`_edges` proxies and sets `_initialized = True`. -/
def Element.initFromResultH (h : Heap) (resultMapAddr : Nat) :
    Heap × ElementH :=
  let hc := dictCopy h resultMapAddr
  (hc.1, { resultMapAddr := resultMapAddr, dataAddr := hc.2,
           hasProxies := true, initFlag := true })

/-- A concrete vertex `Result`: id 3, one property, a short URI. -/
def sampleResult : Result :=
  { get_id := Value.int 3, get_type := "vertex", get_label := Value.null,
    get_outV := Value.null, get_inV := Value.null,
    get_map := [("name", Value.str ("James"))], get_uri := "node/3" }

/-- A concrete initialized `Vertex` over `sampleResult`, with the default
pretty-ID name `eid`. -/
def sampleVertex : Element :=
  Element.initFromResult false ("eid") sampleResult

/-- A vertex `Result` with id 5 and two properties. -/
def resultA : Result :=
  { get_id := Value.int 5, get_type := "vertex", get_label := Value.null,
    get_outV := Value.null, get_inV := Value.null,
    get_map := [("a", Value.int 1), ("b", Value.int 2)], get_uri := "node/5" }

/-- The same element data as `resultA`, with the property map listed in the
other order and a different URI. -/
def resultB : Result :=
  { get_id := Value.int 5, get_type := "vertex", get_label := Value.null,
    get_outV := Value.null, get_inV := Value.null,
    get_map := [("b", Value.int 2), ("a", Value.int 1)], get_uri := "n5alt" }

/-- An initialized `Vertex` over `resultA`. -/
def vertexA : Element :=
  Element.initFromResult false ("eid") resultA

/-- An initialized `Vertex` over `resultB`. -/
def vertexB : Element :=
  Element.initFromResult false ("eid") resultB

/-- A concrete client whose `get_vertex` raises `LookupError` for id 1 and an
opaque server error otherwise, and whose remaining operations all raise
`LookupError`. -/
def absentClient : Client :=
  { config := { id_var := "eid" }
    create_vertex := fun _ => Except.error PyErr.lookupError
    get_vertex := fun i =>
      if i = Value.int 1 then Except.error PyErr.lookupError
      else Except.error (PyErr.other ("boom"))
    update_vertex := fun _ _ => Except.error PyErr.lookupError
    delete_vertex := fun _ => Except.error PyErr.lookupError
    remove_vertex_properties := fun _ => Except.error PyErr.lookupError
    create_edge := fun _ _ _ _ => Except.error PyErr.lookupError
    get_edge := fun _ => Except.error PyErr.lookupError
    delete_edge := fun _ => Except.error PyErr.lookupError
    remove_edge_properties := fun _ => Except.error PyErr.lookupError }

/-- A concrete object heap: address 0 a scalar, address 1 the list `[0]`,
address 2 the server-side property map, a dict with one key `xs` pointing at
the list. -/
def cexHeap : Heap :=
  [Obj.prim (Value.int 1), Obj.arr [0], Obj.dict [("xs", 1)]]

/-- `Element._initialize` run over `cexHeap` with the result's property map at
address 2: the data dict is the shallow copy allocated at address 3. -/
def cexInit : Heap × ElementH :=
  Element.initFromResultH cexHeap 2

/-- The heap after mutating, in place, the nested list reached through the
initialized element's own property data (`self._data["xs"].append(...)`). -/
def cexMutated : Heap :=
  listAppendAt cexInit.1 ((dictLookupAddr cexInit.1 cexInit.2.dataAddr ("xs")).getD 0) 0

/-- A one-dict heap: the caller-owned positional data dict at address 0. -/
def dHeap0 : DHeap :=
  [[("x", Value.int 0)]]

/-- Concrete keyword fields for the `build_data` witnesses. -/
def kwds0 : Dict :=
  [("name", Value.str ("James"))]

/-! Helper lemmas about association lists, heap cells and the element model. -/

theorem lookupAssoc_updateAssoc_self {α : Type} (l : List (String × α))
    (k : String) (v : α) : lookupAssoc (updateAssoc l k v) k = some v := by
  induction l with
  | nil => simp [lookupAssoc, updateAssoc]
  | cons p t ih =>
    by_cases h : p.1 = k
    · simp [updateAssoc, h, lookupAssoc]
    · simp [updateAssoc, h, lookupAssoc, ih]

theorem lookupAssoc_updateAssoc_ne {α : Type} (l : List (String × α))
    (k k' : String) (v : α) (h : k' ≠ k) :
    lookupAssoc (updateAssoc l k v) k' = lookupAssoc l k' := by
  induction l with
  | nil => simp [lookupAssoc, updateAssoc, Ne.symm h]
  | cons p t ih =>
    by_cases hp : p.1 = k
    · simp [updateAssoc, hp, lookupAssoc, Ne.symm h]
    · simp [updateAssoc, hp, lookupAssoc, ih]

theorem lookupAssoc_mem {α : Type} {l : List (String × α)} {k : String} {v : α}
    (h : lookupAssoc l k = some v) : (k, v) ∈ l := by
  induction l with
  | nil => simp [lookupAssoc] at h
  | cons p t ih =>
    by_cases hp : p.1 = k
    · have h2 : p.2 = v := by simpa [lookupAssoc, hp] using h
      have hpkv : p = (k, v) := by
        cases p
        cases hp
        cases h2
        rfl
      rw [← hpkv]
      exact List.mem_cons_self p t
    · have h2 : lookupAssoc t k = some v := by simpa [lookupAssoc, hp] using h
      exact List.mem_cons_of_mem _ (ih h2)

theorem lookupAssoc_of_mem_nodup {α : Type} {l : List (String × α)}
    (hnd : (l.map Prod.fst).Nodup) {k : String} {v : α} (h : (k, v) ∈ l) :
    lookupAssoc l k = some v := by
  induction l with
  | nil => simp at h
  | cons p t ih =>
    have hnd' := List.nodup_cons.mp
      (show (p.1 :: t.map Prod.fst).Nodup from hnd)
    rcases List.mem_cons.mp h with h1 | h1
    · rw [← h1]
      simp [lookupAssoc]
    · have hp : p.1 ≠ k := by
        intro hk
        apply hnd'.1
        rw [hk]
        exact List.mem_map.mpr ⟨(k, v), h1, rfl⟩
      simpa [lookupAssoc, hp] using ih hnd'.2 h1

theorem lookupAssoc_eq_none {α : Type} {l : List (String × α)} {k : String}
    (h : k ∉ l.map Prod.fst) : lookupAssoc l k = none := by
  induction l with
  | nil => rfl
  | cons p t ih =>
    have hp : p.1 ≠ k := by
      intro hk
      exact h (by rw [← hk]; exact List.mem_map.mpr ⟨p, List.mem_cons_self p t, rfl⟩)
    have ht : k ∉ t.map Prod.fst := fun hm => h (by simpa using Or.inr hm)
    simpa [lookupAssoc, hp] using ih ht

theorem lookupAssoc_updateAll (d kw : Dict) (k : String)
    (hnd : (kw.map Prod.fst).Nodup) :
    lookupAssoc (updateAll d kw) k = (lookupAssoc kw k <|> lookupAssoc d k) := by
  induction kw generalizing d with
  | nil => simp [updateAll, lookupAssoc]
  | cons p t ih =>
    have hnd' := List.nodup_cons.mp
      (show (p.1 :: t.map Prod.fst).Nodup from hnd)
    show lookupAssoc (updateAll (updateAssoc d p.1 p.2) t) k = _
    rw [ih _ hnd'.2]
    by_cases hk : p.1 = k
    · rw [← hk]
      rw [lookupAssoc_eq_none hnd'.1]
      simp [lookupAssoc, lookupAssoc_updateAssoc_self]
    · simp [lookupAssoc, hk, lookupAssoc_updateAssoc_ne _ _ _ _ (Ne.symm hk)]

theorem cellGet_append_length {α : Type} (h : List α) (o : α) :
    cellGet (h ++ [o]) h.length = some o := by
  induction h with
  | nil => rfl
  | cons x t ih => simpa [cellGet] using ih

theorem cellGet_append_lt {α : Type} (h : List α) (o : α) (n : Nat)
    (hn : n < h.length) : cellGet (h ++ [o]) n = cellGet h n := by
  induction h generalizing n with
  | nil => exact absurd hn (Nat.not_lt_zero n)
  | cons x t ih =>
    cases n with
    | zero => rfl
    | succ m => exact ih m (Nat.lt_of_succ_lt_succ hn)

theorem cellGet_length_none {α : Type} (h : List α) : cellGet h h.length = none := by
  induction h with
  | nil => rfl
  | cons x t ih => simpa [cellGet] using ih

theorem cellGet_some_lt {α : Type} {h : List α} {n : Nat} {x : α}
    (hx : cellGet h n = some x) : n < h.length := by
  induction h generalizing n with
  | nil => simp [cellGet] at hx
  | cons y t ih =>
    cases n with
    | zero => exact Nat.succ_pos _
    | succ m => exact Nat.succ_lt_succ (ih hx)

theorem cellGet_set_ne {α : Type} (h : List α) (n m : Nat) (v : α)
    (hnm : m ≠ n) : cellGet (cellSet h n v) m = cellGet h m := by
  induction h generalizing n m with
  | nil => rfl
  | cons x t ih =>
    cases n with
    | zero =>
      cases m with
      | zero => exact absurd rfl hnm
      | succ j => rfl
    | succ i =>
      cases m with
      | zero => rfl
      | succ j => exact ih i j (fun hh => hnm (by rw [hh]))

theorem cellGet_set_self {α : Type} (h : List α) (n : Nat) (v : α)
    (hn : n < h.length) : cellGet (cellSet h n v) n = some v := by
  induction h generalizing n with
  | nil => exact absurd hn (Nat.not_lt_zero n)
  | cons x t ih =>
    cases n with
    | zero => rfl
    | succ m => exact ih m (Nat.lt_of_succ_lt_succ hn)

theorem dictEqv_eq_true_iff (a b : Dict)
    (ha : (a.map Prod.fst).Nodup) (hb : (b.map Prod.fst).Nodup) :
    dictEqv a b = true ↔ ∀ k, lookupAssoc a k = lookupAssoc b k := by
  constructor
  · intro h
    unfold dictEqv at h
    rw [Bool.and_eq_true] at h
    obtain ⟨h1, h2⟩ := h
    have hab : ∀ p ∈ a, lookupAssoc b p.1 = some p.2 := by
      intro p hp
      exact beq_iff_eq.mp (List.all_eq_true.mp h1 p hp)
    have hba : ∀ p ∈ b, lookupAssoc a p.1 = some p.2 := by
      intro p hp
      exact beq_iff_eq.mp (List.all_eq_true.mp h2 p hp)
    intro k
    cases hla : lookupAssoc a k with
    | some v => exact (hab (k, v) (lookupAssoc_mem hla)).symm
    | none =>
      cases hlb : lookupAssoc b k with
      | none => rfl
      | some w =>
        rw [hba (k, w) (lookupAssoc_mem hlb)] at hla
        cases hla
  · intro h
    unfold dictEqv
    rw [Bool.and_eq_true]
    constructor
    · apply List.all_eq_true.mpr
      intro p hp
      apply beq_iff_eq.mpr
      rw [← h p.1]
      exact lookupAssoc_of_mem_nodup ha (by simpa using hp)
    · apply List.all_eq_true.mpr
      intro p hp
      apply beq_iff_eq.mpr
      rw [h p.1]
      exact lookupAssoc_of_mem_nodup hb (by simpa using hp)

theorem dictEqv_eq_true_iff_perm (a b : Dict)
    (ha : (a.map Prod.fst).Nodup) (hb : (b.map Prod.fst).Nodup) :
    dictEqv a b = true ↔ List.Perm a b := by
  rw [dictEqv_eq_true_iff a b ha hb]
  constructor
  · intro h
    rw [List.perm_ext_iff_of_nodup (List.Nodup.of_map _ ha) (List.Nodup.of_map _ hb)]
    intro p
    constructor
    · intro hp
      have h1 : lookupAssoc a p.1 = some p.2 :=
        lookupAssoc_of_mem_nodup ha (by simpa using hp)
      have h2 : lookupAssoc b p.1 = some p.2 := by rw [← h p.1]; exact h1
      simpa using lookupAssoc_mem h2
    · intro hp
      have h1 : lookupAssoc b p.1 = some p.2 :=
        lookupAssoc_of_mem_nodup hb (by simpa using hp)
      have h2 : lookupAssoc a p.1 = some p.2 := by rw [h p.1]; exact h1
      simpa using lookupAssoc_mem h2
  · intro h k
    cases hla : lookupAssoc a k with
    | some v =>
      have hm : (k, v) ∈ b := (List.Perm.mem_iff h).mp (lookupAssoc_mem hla)
      exact (lookupAssoc_of_mem_nodup hb hm).symm
    | none =>
      cases hlb : lookupAssoc b k with
      | none => rfl
      | some w =>
        have hm : (k, w) ∈ a := (List.Perm.mem_iff h).mpr (lookupAssoc_mem hlb)
        rw [lookupAssoc_of_mem_nodup ha hm] at hla
        cases hla

theorem descriptorRead_setattr (e : Element) (k : String) (v : Value)
    (n : String) :
    Element.descriptorRead (Element.setattr e k v) n
      = Element.descriptorRead e n := by
  unfold Element.setattr
  split <;> rfl

theorem descriptorRead_applyWrites (e : Element) (ws : List (String × Value))
    (m : String) :
    Element.descriptorRead (applyWrites e ws) m = Element.descriptorRead e m := by
  induction ws generalizing e with
  | nil => rfl
  | cons p t ih =>
    show Element.descriptorRead (applyWrites (Element.setattr e p.1 p.2) t) m = _
    rw [ih, descriptorRead_setattr]

theorem data_lookup_stable (e : Element) (ws : List (String × Value))
    (n : String) (hws : ∀ p ∈ ws, p.1 ≠ n)
    (h0 : lookupAssoc e.data n = none) :
    lookupAssoc (applyWrites e ws).data n = none := by
  induction ws generalizing e with
  | nil => exact h0
  | cons p t ih =>
    show lookupAssoc (applyWrites (Element.setattr e p.1 p.2) t).data n = none
    apply ih
    · intro q hq
      exact hws q (List.mem_cons_of_mem _ hq)
    · show lookupAssoc (Element.setattr e p.1 p.2).data n = none
      unfold Element.setattr
      split
      · exact h0
      · exact (lookupAssoc_updateAssoc_ne e.data p.1 n p.2
          (Ne.symm (hws p (List.mem_cons_self p t)))).trans h0

theorem getattr_data (e : Element) (name : String)
    (hdesc : Element.descriptorRead e name = none)
    (hdict : lookupAssoc e.dictVals name = none)
    (hbase : elementInstanceNames.contains name = false)
    (hmeth : (methodNames e.isEdge).contains name = false) :
    Element.getattr e name
      = (match lookupAssoc e.data name with
         | some v => Except.ok (Attr.value v)
         | none => Except.error name) := by
  unfold Element.getattr
  rw [hdesc, hdict, hbase, hmeth]
  rfl

/-! The claims. -/

/-- C1: on an initialized Element, writing a property key that does not
collide with any declared attribute name (structural property accessor,
internal instance attribute, or class method) via ordinary attribute
assignment and then reading the same key via ordinary attribute access
returns the written value: the write is routed into the property-data map
because the key is not a declared attribute at the moment of assignment (the
instance `__dict__` is untouched), and the read is served from that map. -/
theorem element_setattr_getattr_roundtrip (e : Element) (key : String)
    (v : Value)
    (hinit : e.initialized = true)
    (hbase : elementInstanceNames.contains key = false)
    (hdict : lookupAssoc e.dictVals key = none)
    (hdesc : Element.descriptorRead e key = none)
    (hmeth : (methodNames e.isEdge).contains key = false) :
    Element.getattr (Element.setattr e key v) key = Except.ok (Attr.value v) ∧
    (Element.setattr e key v).data = updateAssoc e.data key v ∧
    (Element.setattr e key v).dictVals = e.dictVals := by
  have hcond : (elementInstanceNames.contains key
      || (lookupAssoc e.dictVals key).isSome || !e.initialized) = false := by
    rw [hbase, hdict, hinit]
    rfl
  have hset : Element.setattr e key v
      = { e with data := updateAssoc e.data key v } := by
    unfold Element.setattr
    rw [hcond]
    rfl
  refine ⟨?_, by rw [hset], by rw [hset]⟩
  rw [hset]
  rw [getattr_data ({ e with data := updateAssoc e.data key v }) key hdesc hdict
    hbase hmeth]
  rw [lookupAssoc_updateAssoc_self]

/-- C1 witness: on the concrete initialized vertex, writing and reading the
key `age` round-trips through the property-data map. -/
theorem element_setattr_getattr_roundtrip_witness :
    Element.getattr (Element.setattr sampleVertex ("age") (Value.int 34)) ("age")
      = Except.ok (Attr.value (Value.int 34)) ∧
    (Element.setattr sampleVertex ("age") (Value.int 34)).data
      = updateAssoc sampleVertex.data ("age") (Value.int 34) ∧
    (Element.setattr sampleVertex ("age") (Value.int 34)).dictVals
      = sampleVertex.dictVals :=
  element_setattr_getattr_roundtrip sampleVertex ("age") (Value.int 34)
    (by rfl) (by decide) (by rfl) (by decide) (by decide)

/-- C2 (code bug, evaluated at the failing input): `VertexProxy.update`
computes the merged payload with `build_data` but then calls
`client.update_vertex(_id, _data)` with the original positional argument —
Python `None` when only keyword fields were given — and falls off the end of
the method, returning `None` instead of the client's raw response.  At
`update(1, name="James")` the merged dict is built on the heap, yet the
request carries `None` and the method returns `None`. -/
theorem vertexProxy_update_failing_input :
    VertexProxy.update [] (Value.int 1) none [("name", Value.str ("James"))]
      = ([[("name", Value.str ("James"))]],
         { uid := Value.int 1, payload := none }, none) := rfl

/-- C3 counterexample: writing the reserved structural accessor name `_id` on
an initialized element routes the value into the property-data map — the map,
reserved-key-free at initialization, afterwards contains `_id`, contradicting
the claim that it never contains a reserved name. -/
theorem reserved_key_enters_data_counterexample :
    lookupAssoc sampleVertex.data ("_id") = none ∧
    lookupAssoc (applyWrites sampleVertex [("_id", Value.int 99)]).data ("_id")
      = some (Value.int 99) := by decide

/-- C3 (amended): after initialization, ordinary attribute writes never change
what the structural accessors return — reads of `_id`/`_type`/`_label`/
`_outV`/`_inV` always delegate to the stored result, even when the written key
is the reserved name itself — but a write whose key equals a reserved accessor
name is routed into the property-data map (reserved names are class-level
accessors, never instance attributes), so the map stays free of a reserved key
only along write sequences avoiding it: for any write sequence avoiding the
reserved names and the internal instance-attribute names, a reserved key
absent before the writes is still absent after them. -/
theorem structural_reads_stable_data_clean (e : Element)
    (ws : List (String × Value)) (n m : String) (v : Value)
    (_hinit : e.initialized = true)
    (hn : n ∈ reservedNames)
    (_hwi : ∀ p ∈ ws, p.1 ∉ elementInstanceNames)
    (hwr : ∀ p ∈ ws, p.1 ∉ reservedNames)
    (hclean : lookupAssoc e.data n = none) :
    Element.descriptorRead (applyWrites e ws) m = Element.descriptorRead e m ∧
    Element.descriptorRead (Element.setattr e n v) m
      = Element.descriptorRead e m ∧
    lookupAssoc (applyWrites e ws).data n = none := by
  refine ⟨descriptorRead_applyWrites e ws m, descriptorRead_setattr e n v m, ?_⟩
  apply data_lookup_stable e ws n ?_ hclean
  intro p hp hpn
  exact hwr p hp (by rw [hpn]; exact hn)

/-- C3 witness: on the concrete vertex, a write of `age` leaves the structural
reads of `_id` unchanged and keeps `_id` out of the data map; a direct write of
`_id` also leaves the structural read unchanged. -/
theorem structural_reads_stable_data_clean_witness :
    Element.descriptorRead (applyWrites sampleVertex [("age", Value.int 34)]) ("_id")
      = Element.descriptorRead sampleVertex ("_id") ∧
    Element.descriptorRead (Element.setattr sampleVertex ("_id") (Value.int 99)) ("_id")
      = Element.descriptorRead sampleVertex ("_id") ∧
    lookupAssoc (applyWrites sampleVertex [("age", Value.int 34)]).data ("_id")
      = none :=
  structural_reads_stable_data_clean sampleVertex [("age", Value.int 34)]
    ("_id") ("_id") (Value.int 99) (by rfl) (by decide) (by decide) (by decide)
    (by decide)

/-- C4: two initialized Elements compare equal iff they are the same concrete
variant (Vertex vs Edge), have the same element ID, and have identical
property-data snapshots (equal as dicts; with duplicate-free keys this is
exactly permutation of the association lists); and `__ne__` is exactly the
negation of `__eq__`. -/
theorem element_eq_iff (e1 e2 : Element)
    (_hinit1 : e1.initialized = true) (_hinit2 : e2.initialized = true)
    (hn1 : (e1.data.map Prod.fst).Nodup) (hn2 : (e2.data.map Prod.fst).Nodup) :
    (Element.eq e1 e2 = true ↔
      (e1.isEdge = e2.isEdge ∧ Element._id e1 = Element._id e2 ∧
        List.Perm e1.data e2.data)) ∧
    Element.ne e1 e2 = !(Element.eq e1 e2) := by
  constructor
  · unfold Element.eq
    rw [Bool.and_eq_true, Bool.and_eq_true, beq_iff_eq, beq_iff_eq,
      dictEqv_eq_true_iff_perm e2.data e1.data hn2 hn1]
    constructor
    · rintro ⟨⟨hc, hid⟩, hd⟩
      exact ⟨hc.symm, hid.symm, hd.symm⟩
    · rintro ⟨hc, hid, hd⟩
      exact ⟨⟨hc.symm, hid.symm⟩, hd.symm⟩
  · rfl

/-- C4 witness: the two concrete vertices share variant, ID and property data
(listed in different orders, with different URIs), and the equivalence holds
at them. -/
theorem element_eq_iff_witness :
    (Element.eq vertexA vertexB = true ↔
      (vertexA.isEdge = vertexB.isEdge ∧
        Element._id vertexA = Element._id vertexB ∧
        List.Perm vertexA.data vertexB.data)) ∧
    Element.ne vertexA vertexB = !(Element.eq vertexA vertexB) :=
  element_eq_iff vertexA vertexB (by rfl) (by rfl) (by decide) (by decide)

/-- C5 counterexample: `_initialize` copies the result's property map with
`dict.copy()`, a SHALLOW copy, so mutating the nested list reached through the
element's own property data (`self._data["xs"].append(...)`) IS observable
through the result's map — the claim that no mutation of the element's
property data, including mutation of nested values, is observable through the
result's map is false at this input. -/
theorem shallow_copy_alias_counterexample :
    readThroughDict cexInit.1 cexInit.2.resultMapAddr ("xs")
      = some (Obj.arr [0]) ∧
    readThroughDict cexMutated cexInit.2.resultMapAddr ("xs")
      = some (Obj.arr [0, 0]) := by decide

/-- C5 (amended): `_initialize(result)` stores the result, SHALLOW-copies its
property map into the element's data — a fresh top-level dict (at a fresh
address) carrying the same key/value-address pairs, so adding or rebinding
top-level keys on the element's data is not observable through the result's
map, while nested list/map values remain shared — installs the navigational
proxies, and marks the element initialized. -/
theorem initFromResult_shallow_copy (h : Heap) (m : Nat)
    (es : List (String × Nat)) (k : String) (a' : Nat)
    (hm : dictEntries h m = some es) :
    (Element.initFromResultH h m).2.resultMapAddr = m ∧
    (Element.initFromResultH h m).2.dataAddr = h.length ∧
    cellGet h ((Element.initFromResultH h m).2.dataAddr) = none ∧
    dictEntries (Element.initFromResultH h m).1
        ((Element.initFromResultH h m).2.dataAddr) = some es ∧
    dictEntries (Element.initFromResultH h m).1 m = some es ∧
    (Element.initFromResultH h m).2.hasProxies = true ∧
    (Element.initFromResultH h m).2.initFlag = true ∧
    dictEntries (dictSetKey (Element.initFromResultH h m).1
        ((Element.initFromResultH h m).2.dataAddr) k a') m = some es := by
  have hcell : cellGet h m = some (Obj.dict es) := by
    unfold dictEntries at hm
    cases hc : cellGet h m with
    | none => simp [hc] at hm
    | some o =>
      cases o with
      | prim w => simp [hc] at hm
      | arr xs => simp [hc] at hm
      | dict es2 =>
        simp [hc] at hm
        rw [hm]
  have hlt : m < h.length := cellGet_some_lt hcell
  have hinit2 : Element.initFromResultH h m
      = (h ++ [Obj.dict es],
         { resultMapAddr := m, dataAddr := h.length,
           hasProxies := true, initFlag := true }) := by
    unfold Element.initFromResultH dictCopy
    rw [hm]
  rw [hinit2]
  have hd : dictEntries (h ++ [Obj.dict es]) h.length = some es := by
    unfold dictEntries
    rw [cellGet_append_length]
  refine ⟨rfl, rfl, cellGet_length_none h, hd, ?_, rfl, rfl, ?_⟩
  · unfold dictEntries
    rw [cellGet_append_lt h _ m hlt, hcell]
  · unfold dictSetKey
    rw [hd]
    unfold dictEntries
    rw [cellGet_set_ne _ _ _ _ (Nat.ne_of_lt hlt),
      cellGet_append_lt h _ m hlt, hcell]

/-- C5 witness: the shallow-copy contract evaluated on the concrete heap. -/
theorem initFromResult_shallow_copy_witness :
    (Element.initFromResultH cexHeap 2).2.resultMapAddr = 2 ∧
    (Element.initFromResultH cexHeap 2).2.dataAddr = cexHeap.length ∧
    cellGet cexHeap ((Element.initFromResultH cexHeap 2).2.dataAddr) = none ∧
    dictEntries (Element.initFromResultH cexHeap 2).1
        ((Element.initFromResultH cexHeap 2).2.dataAddr) = some [("xs", 1)] ∧
    dictEntries (Element.initFromResultH cexHeap 2).1 2 = some [("xs", 1)] ∧
    (Element.initFromResultH cexHeap 2).2.hasProxies = true ∧
    (Element.initFromResultH cexHeap 2).2.initFlag = true ∧
    dictEntries (dictSetKey (Element.initFromResultH cexHeap 2).1
        ((Element.initFromResultH cexHeap 2).2.dataAddr) ("ys") 0) 2
      = some [("xs", 1)] :=
  initFromResult_shallow_copy cexHeap 2 [("xs", 1)] ("ys") 0 (by decide)

/-- C6: the proxy `get` operations convert a `LookupError` raised by the
client into an absent result (`None`) instead of propagating it, for both
`VertexProxy.get` and `EdgeProxy.get`; any other error raised by the client's
get propagates out of `get` unchanged; and the other proxy operations are
direct pass-throughs, propagating whatever the client produces. -/
theorem proxy_get_absorbs_not_found (client : Client) (vid otherId : Value)
    (msg : String)
    (hv : client.get_vertex vid = Except.error PyErr.lookupError)
    (he : client.get_edge vid = Except.error PyErr.lookupError)
    (ho : client.get_vertex otherId = Except.error (PyErr.other msg)) :
    VertexProxy.get client vid = Except.ok none ∧
    EdgeProxy.get client vid = Except.ok none ∧
    VertexProxy.get client otherId = Except.error (PyErr.other msg) ∧
    VertexProxy.delete client vid = client.delete_vertex vid ∧
    VertexProxy.remove_properties client vid
      = client.remove_vertex_properties vid ∧
    EdgeProxy.delete client vid = client.delete_edge vid := by
  refine ⟨?_, ?_, ?_, rfl, rfl, rfl⟩
  · unfold VertexProxy.get
    rw [hv]
  · unfold EdgeProxy.get
    rw [he]
  · unfold VertexProxy.get
    rw [ho]

/-- C6 witness: against the concrete client, `get` of the absent id 1 returns
`None` for both proxies, `get` of id 2 propagates the opaque server error, and
the pass-through operations agree with the client. -/
theorem proxy_get_absorbs_not_found_witness :
    VertexProxy.get absentClient (Value.int 1) = Except.ok none ∧
    EdgeProxy.get absentClient (Value.int 1) = Except.ok none ∧
    VertexProxy.get absentClient (Value.int 2)
      = Except.error (PyErr.other ("boom")) ∧
    VertexProxy.delete absentClient (Value.int 1)
      = absentClient.delete_vertex (Value.int 1) ∧
    VertexProxy.remove_properties absentClient (Value.int 1)
      = absentClient.remove_vertex_properties (Value.int 1) ∧
    EdgeProxy.delete absentClient (Value.int 1)
      = absentClient.delete_edge (Value.int 1) :=
  proxy_get_absorbs_not_found absentClient (Value.int 1) (Value.int 2) ("boom")
    (by rfl) (by rfl) (by rfl)

/-- C7: `EdgeProxy.create` with a null (`None`) label fails with
`AssertionError` before doing anything else: the trace of client requests
issued by the call is empty — zero network interactions. -/
theorem edgeProxy_create_null_label_no_calls (client : Client)
    (outVarg inVarg : VertexOrId) (_data : Option Dict) (kwds : Dict) :
    EdgeProxy.create client outVarg none inVarg _data kwds
      = ([], Except.error PyErr.assertionError) := rfl

/-- C8: coercing an initialized Vertex instance and coercing that vertex's raw
ID produce the same identifier, so passing either to edge creation produces
identical request payloads (identical call traces and results). -/
theorem coerce_vertex_id_agreement (v : Element) (client : Client)
    (label : Option String) (inVarg : VertexOrId) (_data : Option Dict)
    (kwds : Dict) (_hv : v.isEdge = false) (_hinit : v.initialized = true) :
    coerce_vertex (VertexOrId.vertex v)
      = coerce_vertex (VertexOrId.raw (Element._id v)) ∧
    EdgeProxy.create client (VertexOrId.vertex v) label inVarg _data kwds
      = EdgeProxy.create client (VertexOrId.raw (Element._id v)) label inVarg
          _data kwds :=
  ⟨rfl, rfl⟩

/-- C8 witness: the agreement evaluated at the concrete vertex and a concrete
edge-creation request. -/
theorem coerce_vertex_id_agreement_witness :
    coerce_vertex (VertexOrId.vertex sampleVertex)
      = coerce_vertex (VertexOrId.raw (Element._id sampleVertex)) ∧
    EdgeProxy.create absentClient (VertexOrId.vertex sampleVertex)
        (some ("knows")) (VertexOrId.raw (Value.int 9)) none []
      = EdgeProxy.create absentClient
          (VertexOrId.raw (Element._id sampleVertex)) (some ("knows"))
          (VertexOrId.raw (Value.int 9)) none [] :=
  coerce_vertex_id_agreement sampleVertex absentClient (some ("knows"))
    (VertexOrId.raw (Value.int 9)) none [] (by rfl) (by rfl)

/-- C9: for a name absent from every declared attribute (structural accessor,
instance attribute, method) and from the property-data map, `Element.get`
returns the null sentinel (Python `None`) without failing, while direct
attribute access fails with an `AttributeError` naming the missing key. -/
theorem element_get_null_vs_getattr_error (e : Element) (name : String)
    (_hinit : e.initialized = true)
    (hdesc : Element.descriptorRead e name = none)
    (hdict : lookupAssoc e.dictVals name = none)
    (hbase : elementInstanceNames.contains name = false)
    (hmeth : (methodNames e.isEdge).contains name = false)
    (hdata : lookupAssoc e.data name = none) :
    Element.get e name = Attr.value Value.null ∧
    Element.getattr e name = Except.error name := by
  have hg : Element.getattr e name = Except.error name := by
    rw [getattr_data e name hdesc hdict hbase hmeth, hdata]
  exact ⟨by unfold Element.get; rw [hg], hg⟩

/-- C9 witness: on the concrete vertex, `get("nickname")` is `None` and the
direct read of `nickname` raises `AttributeError("nickname")`. -/
theorem element_get_null_vs_getattr_error_witness :
    Element.get sampleVertex ("nickname") = Attr.value Value.null ∧
    Element.getattr sampleVertex ("nickname") = Except.error ("nickname") :=
  element_get_null_vs_getattr_error sampleVertex ("nickname") (by rfl)
    (by decide) (by rfl) (by decide) (by decide) (by decide)

/-- C10: `build_data` with a non-None `_data` returns the very same dict
object (its own address), mutated in place so that it afterwards holds the
keyword pairs merged in, keywords winning on key collision; consequently the
proxy create/update payload step mutates the caller-owned dict; and with
`_data = None` a fresh dict equal to the keyword pairs is allocated, the rest
of the heap untouched. -/
theorem build_data_in_place (h : DHeap) (a : Nat) (d : Dict) (kwds : Dict)
    (k : String) (i : Value) (b : Nat)
    (ha : cellGet h a = some d) (hb : b < h.length)
    (hkw : (kwds.map Prod.fst).Nodup) :
    (build_dataH h (some a) kwds).2 = a ∧
    cellGet (build_dataH h (some a) kwds).1 a = some (updateAll d kwds) ∧
    lookupAssoc (updateAll d kwds) k
      = (lookupAssoc kwds k <|> lookupAssoc d k) ∧
    (build_dataH h none kwds).2 = h.length ∧
    cellGet h h.length = none ∧
    cellGet (build_dataH h none kwds).1 h.length = some (updateAll [] kwds) ∧
    cellGet (build_dataH h none kwds).1 b = cellGet h b ∧
    cellGet (VertexProxy.update h i (some a) kwds).1 a
      = some (updateAll d kwds) ∧
    (VertexProxy.createH h (some a) kwds).2 = a ∧
    cellGet (VertexProxy.createH h (some a) kwds).1 a
      = some (updateAll d kwds) := by
  have hset : cellGet (cellSet h a (updateAll ((cellGet h a).getD []) kwds)) a
      = some (updateAll d kwds) := by
    rw [ha]
    exact cellGet_set_self h a _ (cellGet_some_lt ha)
  exact ⟨rfl, hset, lookupAssoc_updateAll d kwds k hkw, rfl,
    cellGet_length_none h, cellGet_append_length h _,
    cellGet_append_lt h _ b hb, hset, rfl, hset⟩

/-- C10 witness: the in-place merge evaluated on the concrete one-dict heap
with one keyword field. -/
theorem build_data_in_place_witness :
    (build_dataH dHeap0 (some 0) kwds0).2 = 0 ∧
    cellGet (build_dataH dHeap0 (some 0) kwds0).1 0
      = some (updateAll [("x", Value.int 0)] kwds0) ∧
    lookupAssoc (updateAll [("x", Value.int 0)] kwds0) ("name")
      = (lookupAssoc kwds0 ("name")
          <|> lookupAssoc [("x", Value.int 0)] ("name")) ∧
    (build_dataH dHeap0 none kwds0).2 = dHeap0.length ∧
    cellGet dHeap0 dHeap0.length = none ∧
    cellGet (build_dataH dHeap0 none kwds0).1 dHeap0.length
      = some (updateAll [] kwds0) ∧
    cellGet (build_dataH dHeap0 none kwds0).1 0 = cellGet dHeap0 0 ∧
    cellGet (VertexProxy.update dHeap0 (Value.int 1) (some 0) kwds0).1 0
      = some (updateAll [("x", Value.int 0)] kwds0) ∧
    (VertexProxy.createH dHeap0 (some 0) kwds0).2 = 0 ∧
    cellGet (VertexProxy.createH dHeap0 (some 0) kwds0).1 0
      = some (updateAll [("x", Value.int 0)] kwds0) :=
  build_data_in_place dHeap0 0 [("x", Value.int 0)] kwds0 ("name")
    (Value.int 1) 0 (by rfl) (by decide) (by decide)
